import Mathlib

/-!
Shallow embedding of the observlib-rs telemetry coordination library
(`src/lib.rs`, `src/errors.rs`, `src/logs.rs`, `src/metrics.rs`,
`src/lib/traces.rs`).

The library initializes three OpenTelemetry export backends (trace, metric,
log) sharing one process-wide `Resource` descriptor, and coordinates their
graceful shutdown: a blocking `OtelManager::shutdown` that aggregates
per-backend failures, and an async `OtelManager::async_shutdown` that runs
the same coordinator on a blocking-pool worker, optionally raced against a
timer.

External collaborators (the OpenTelemetry SDK providers, `OnceLock`, and
tokio) are embedded through their documented semantics:
* the outcome of each provider's `shutdown()` call is an oracle
  (`ShutdownEnv`), since it depends on network flush I/O;
* `OnceLock` is explicit state (`Option Resource`) threaded through
  `get_resource`;
* `tokio::task::spawn_blocking` runs its closure to completion once spawned,
  whether or not the join handle is awaited (dropping the handle detaches
  the task, it does not cancel it), and awaiting the handle yields either
  the closure's result or a join error (task aborted or panicked);
* `tokio::time::timeout` yields either the wrapped future's result or an
  elapsed error, decided by which side of the race finishes first
  (`RaceWinner` oracle).
-/

namespace Observlib

/-- Embeds `opentelemetry::KeyValue`: one resource attribute. -/
structure KeyValue where
  key : String
  value : String
deriving DecidableEq, Repr

/-- Embeds `opentelemetry_sdk::Resource` as built by
`Resource::builder().with_service_name(..).with_attributes(..).build()`:
the service identity descriptor attached to all exported telemetry. -/
structure Resource where
  service_name : String
  attributes : List KeyValue
deriving DecidableEq, Repr

/-- Embeds `Resource::builder().with_service_name(service_name).with_attributes(attrs).build()`. -/
def Resource.build (service_name : String) (attrs : List KeyValue) : Resource :=
  { service_name := service_name, attributes := attrs }

/-- Embeds `get_resource` from `src/lib.rs`: the `static RESOURCE : OnceLock<Resource>`
is modelled as an explicit cell (`Option Resource`, `none` = uninitialized).
Returns the resource handed to the caller and the cell afterwards,
mirroring `RESOURCE.get_or_init(|| Resource::builder()...build()).clone()`. -/
def get_resource (cell : Option Resource) (service_name : String)
    (attrs : List KeyValue) : Resource × Option Resource :=
  match cell with
  | some r => (r, some r)
  | none =>
      let r := Resource.build service_name attrs
      (r, some r)

/-- Embeds `opentelemetry_otlp::Protocol` (the two HTTP variants used here). -/
inductive Protocol where
  | HttpBinary
  | HttpJson
deriving DecidableEq, Repr

/-- Export strategy chosen when the provider is built:
`with_batch_exporter` or `with_periodic_exporter`. -/
inductive ExportStrategy where
  | batch
  | periodic
deriving DecidableEq, Repr

/-- An OTLP exporter as configured by
`builder().with_http().with_protocol(p).with_endpoint(url).build()`. -/
structure Exporter where
  protocol : Protocol
  endpoint : String
deriving DecidableEq, Repr

/-- Embeds `SpanExporter::builder().with_http().with_protocol(protocol).with_endpoint(url).build()`
(and likewise `MetricExporter` / `LogExporter`): the builder accepts either
HTTP protocol and the full endpoint URL. -/
def Exporter.build (protocol : Protocol) (url : String) : Exporter :=
  { protocol := protocol, endpoint := url }

/-- Embeds `opentelemetry_sdk::trace::SdkTracerProvider` as configured by `init_traces`. -/
structure SdkTracerProvider where
  exporter : Exporter
  resource : Resource
  strategy : ExportStrategy
deriving DecidableEq, Repr

/-- Embeds `opentelemetry_sdk::metrics::SdkMeterProvider` as configured by `init_metrics`. -/
structure SdkMeterProvider where
  exporter : Exporter
  resource : Resource
  strategy : ExportStrategy
deriving DecidableEq, Repr

/-- Embeds `opentelemetry_sdk::logs::SdkLoggerProvider` as configured by `init_logs`. -/
structure SdkLoggerProvider where
  exporter : Exporter
  resource : Resource
  strategy : ExportStrategy
deriving DecidableEq, Repr

/-- Embeds `init_traces` from `src/lib/traces.rs`: span exporter over HTTP binary
protocol at `http://` + endpoint + `/v1/traces`, batching strategy. -/
def init_traces (resource : Resource) (endpoint : String) : SdkTracerProvider :=
  let exporter := Exporter.build Protocol.HttpBinary ("http://" ++ endpoint ++ "/v1/traces")
  { exporter := exporter, resource := resource, strategy := ExportStrategy.batch }

/-- Embeds `init_metrics` from `src/metrics.rs`: metric exporter over HTTP binary
protocol at `http://` + endpoint + `/v1/metrics`, periodic strategy. -/
def init_metrics (resource : Resource) (endpoint : String) : SdkMeterProvider :=
  let exporter := Exporter.build Protocol.HttpBinary ("http://" ++ endpoint ++ "/v1/metrics")
  { exporter := exporter, resource := resource, strategy := ExportStrategy.periodic }

/-- Embeds `init_logs` from `src/logs.rs`: log exporter over HTTP binary protocol at
`http://` + endpoint + `/v1/logs`, batching strategy. -/
def init_logs (resource : Resource) (endpoint : String) : SdkLoggerProvider :=
  let exporter := Exporter.build Protocol.HttpBinary ("http://" ++ endpoint ++ "/v1/logs")
  { exporter := exporter, resource := resource, strategy := ExportStrategy.batch }

/-- Embeds `OtelManager` from `src/lib.rs`: owns the three providers. -/
structure OtelManager where
  logger : SdkLoggerProvider
  meter : SdkMeterProvider
  tracer : SdkTracerProvider
deriving DecidableEq, Repr

/-- Embeds `initialize_telemetry` from `src/lib.rs`, restricted to the coordination
core: builds the shared resource through the `OnceLock` cell and the three
providers from it. (The tracing-subscriber layer wiring and the global
provider registration are configuration side effects outside this model.)
Returns the manager and the `OnceLock` cell afterwards. -/
def initialize_telemetry (cell : Option Resource) (service_name : String)
    (endpoint : String) (attributes : List KeyValue) : OtelManager × Option Resource :=
  let rc := get_resource cell service_name attributes
  let resource := rc.1
  let logger_provider := init_logs resource endpoint
  let tracer_provider := init_traces resource endpoint
  let meter_provider := init_metrics resource endpoint
  ({ logger := logger_provider, tracer := tracer_provider, meter := meter_provider }, rc.2)

/-- Embeds `ObservlibError` from `src/errors.rs`. The `TaskJoin` payload is the
join error's display string. -/
inductive ObservlibError where
  | TracerShutdown (msg : String)
  | MeterShutdown (msg : String)
  | LoggerShutdown (msg : String)
  | MultipleShutdownFailures (msg : String)
  | ShutdownTimeout
  | TaskJoin (msg : String)
deriving DecidableEq, Repr

/-- The three telemetry backends, in no particular order. -/
inductive Backend where
  | trace
  | metric
  | log
deriving DecidableEq, Repr

/-- Oracle for the outcome of each provider's `shutdown()` call
(`none` = the call returns `Ok(())`, `some e` = it returns an error whose
display string is `e`). Shutdown outcomes depend on network flush I/O, so
they are environment inputs of the model. -/
structure ShutdownEnv where
  tracer : Option String
  meter : Option String
  logger : Option String
deriving DecidableEq, Repr

/-- Outcome of one provider's `shutdown()` call under the oracle. -/
def providerShutdown (env : ShutdownEnv) : Backend → Option String
  | Backend.trace => env.tracer
  | Backend.metric => env.meter
  | Backend.log => env.logger

/-- Embeds `OtelManager::shutdown` from `src/lib.rs` (the blocking coordinator),
instrumented with an attempt log: the first component records, in order,
each provider on which `.shutdown()` was invoked; the second is the
function's `Result`. Each `let` pair below corresponds to one
`if let Err(e) = X.shutdown()` statement of the source. -/
def OtelManager.shutdown (env : ShutdownEnv) :
    List Backend × Except ObservlibError Unit :=
  let shutdown_errors : List String := []
  let attempts : List Backend := []
  -- self.tracer.shutdown()
  let attempts := attempts ++ [Backend.trace]
  let shutdown_errors :=
    match providerShutdown env Backend.trace with
    | some e => shutdown_errors ++ ["tracer provider: " ++ e]
    | none => shutdown_errors
  -- self.meter.shutdown()
  let attempts := attempts ++ [Backend.metric]
  let shutdown_errors :=
    match providerShutdown env Backend.metric with
    | some e => shutdown_errors ++ ["meter provider: " ++ e]
    | none => shutdown_errors
  -- self.logger.shutdown()
  let attempts := attempts ++ [Backend.log]
  let shutdown_errors :=
    match providerShutdown env Backend.log with
    | some e => shutdown_errors ++ ["logger provider: " ++ e]
    | none => shutdown_errors
  if !shutdown_errors.isEmpty then
    (attempts,
      Except.error (ObservlibError.MultipleShutdownFailures
        (String.intercalate "\n" shutdown_errors)))
  else
    (attempts, Except.ok ())

/-- The closure handed to `tokio::task::spawn_blocking` inside
`OtelManager::async_shutdown` (`src/lib.rs`); the source duplicates the
body of the blocking coordinator over the cloned providers, and so does
this transcription. Same instrumentation as `OtelManager.shutdown`. -/
def asyncShutdownClosure (env : ShutdownEnv) :
    List Backend × Except ObservlibError Unit :=
  let shutdown_errors : List String := []
  let attempts : List Backend := []
  -- tracer.shutdown()
  let attempts := attempts ++ [Backend.trace]
  let shutdown_errors :=
    match providerShutdown env Backend.trace with
    | some e => shutdown_errors ++ ["tracer provider: " ++ e]
    | none => shutdown_errors
  -- meter.shutdown()
  let attempts := attempts ++ [Backend.metric]
  let shutdown_errors :=
    match providerShutdown env Backend.metric with
    | some e => shutdown_errors ++ ["meter provider: " ++ e]
    | none => shutdown_errors
  -- logger.shutdown()
  let attempts := attempts ++ [Backend.log]
  let shutdown_errors :=
    match providerShutdown env Backend.log with
    | some e => shutdown_errors ++ ["logger provider: " ++ e]
    | none => shutdown_errors
  if !shutdown_errors.isEmpty then
    (attempts,
      Except.error (ObservlibError.MultipleShutdownFailures
        (String.intercalate "\n" shutdown_errors)))
  else
    (attempts, Except.ok ())

/-- Whether the blocking-pool worker ran the spawned closure to completion
(`ok`), or failed to (`joinError`: the task was aborted or panicked, with
the join error's display string). -/
inductive JoinOutcome where
  | ok
  | joinError (msg : String)
deriving DecidableEq, Repr

/-- Which side of `tokio::time::timeout(duration, shutdown_future)` finishes
first. Real time is outside the model, so the race outcome is an oracle. -/
inductive RaceWinner where
  | future
  | timer
deriving DecidableEq, Repr

/-- Result delivered by awaiting `shutdown_future` in
`OtelManager::async_shutdown`: `spawn_blocking(closure).await?`, where `?`
lifts a `JoinError` into `ObservlibError::TaskJoin` via `#[from]`. -/
def shutdownFuture (env : ShutdownEnv) (join : JoinOutcome) :
    Except ObservlibError Unit :=
  match join with
  | JoinOutcome.ok => (asyncShutdownClosure env).2
  | JoinOutcome.joinError m => Except.error (ObservlibError.TaskJoin m)

/-- Backend shutdown attempts performed by the blocking-pool worker. Per
tokio's documented `spawn_blocking` semantics the spawned closure runs to
completion once it is spawned, whether or not the join handle is awaited;
dropping the handle only detaches the task. When the worker fails to run
the closure to completion its attempt log is not modelled. -/
def workerAttempts (env : ShutdownEnv) (join : JoinOutcome) : List Backend :=
  match join with
  | JoinOutcome.ok => (asyncShutdownClosure env).1
  | JoinOutcome.joinError _ => []

/-- Embeds `OtelManager::async_shutdown` from `src/lib.rs`. Durations are
milliseconds. The first component is the `Result` the caller observes:
with `timeout = some d` the code runs
`tokio::time::timeout(d, shutdown_future).await.map_err(|_| ShutdownTimeout)?`,
so the timer winning yields `ShutdownTimeout` and the future winning yields
its result; with `timeout = none` it runs `shutdown_future.await` directly
(no race). The second component is the worker's attempt log
(`workerAttempts`), which does not depend on the race: the timeout path
never cancels the spawned blocking task. -/
def async_shutdown (env : ShutdownEnv) (join : JoinOutcome)
    (timeout : Option Nat) (race : RaceWinner) :
    Except ObservlibError Unit × List Backend :=
  let result :=
    match timeout with
    | some _ =>
      match race with
      | RaceWinner.timer => Except.error ObservlibError.ShutdownTimeout
      | RaceWinner.future => shutdownFuture env join
    | none => shutdownFuture env join
  (result, workerAttempts env join)

/-- The fixed attempt order of the shutdown coordinator. -/
def attemptOrder : List Backend := [Backend.trace, Backend.metric, Backend.log]

/-- The failure-message label each backend contributes
(`format!` strings in `src/lib.rs`). -/
def backendLabel : Backend → String
  | Backend.trace => "tracer provider: "
  | Backend.metric => "meter provider: "
  | Backend.log => "logger provider: "

/-- Declarative description of the accumulated `shutdown_errors` list:
one labelled entry per failed backend, in the fixed attempt order. -/
def failureEntries (env : ShutdownEnv) : List String :=
  attemptOrder.filterMap
    (fun b => (providerShutdown env b).map (fun e => backendLabel b ++ e))

end Observlib

namespace Observlib

theorem backendLabel_append_inj {b b' : Backend} {e e' : String}
    (h : backendLabel b ++ e = backendLabel b' ++ e') : b = b' ∧ e = e' := by
  have hd := congrArg String.data h
  rw [String.data_append, String.data_append] at hd
  cases b <;> cases b' <;>
    first
      | exact ⟨rfl, String.ext (List.append_cancel_left hd)⟩
      | (exfalso
         have h1 := congrArg (List.take 1) hd
         rw [List.take_append_of_le_length (by decide),
           List.take_append_of_le_length (by decide)] at h1
         exact absurd h1 (by decide))

theorem mem_attemptOrder (b : Backend) : b ∈ attemptOrder := by
  cases b <;> decide

theorem shutdown_eq (env : ShutdownEnv) :
    OtelManager.shutdown env =
      (attemptOrder,
        if failureEntries env = [] then Except.ok ()
        else Except.error (ObservlibError.MultipleShutdownFailures
          (String.intercalate "\n" (failureEntries env)))) := by
  obtain ⟨t, m, l⟩ := env
  cases t <;> cases m <;> cases l <;> rfl

theorem failureEntries_nil_iff (env : ShutdownEnv) :
    failureEntries env = [] ↔
      env.tracer = none ∧ env.meter = none ∧ env.logger = none := by
  obtain ⟨t, m, l⟩ := env
  cases t <;> cases m <;> cases l <;>
    simp [failureEntries, attemptOrder, providerShutdown, backendLabel]

theorem mem_failureEntries_iff (env : ShutdownEnv) (b : Backend) (e : String) :
    (backendLabel b ++ e) ∈ failureEntries env ↔ providerShutdown env b = some e := by
  constructor
  · intro h
    rcases List.mem_filterMap.mp h with ⟨b', _, hb'⟩
    rcases Option.map_eq_some'.mp hb' with ⟨x, hx, hlab⟩
    obtain ⟨hbb, hee⟩ := backendLabel_append_inj hlab
    rw [← hbb, hx, hee]
  · intro h
    exact List.mem_filterMap.mpr ⟨b, mem_attemptOrder b, by rw [h]; rfl⟩

theorem shutdown_result_shape (env : ShutdownEnv) :
    (OtelManager.shutdown env).2 = Except.ok () ∨
      ∃ m, (OtelManager.shutdown env).2 =
        Except.error (ObservlibError.MultipleShutdownFailures m) := by
  rw [shutdown_eq]
  by_cases hnil : failureEntries env = []
  · left; simp [hnil]
  · right; exact ⟨String.intercalate "\n" (failureEntries env), by simp [hnil]⟩

end Observlib

namespace Observlib

/-- C1: the blocking shutdown succeeds iff zero backends failed; otherwise it
returns a single `MultipleShutdownFailures` whose message newline-joins one
labelled entry per failed backend, in the fixed attempt order, and an entry
with a backend's label is present iff that backend failed. -/
theorem shutdown_aggregation_correct (env : ShutdownEnv) :
    (OtelManager.shutdown env).2 =
      (if failureEntries env = [] then Except.ok ()
       else Except.error (ObservlibError.MultipleShutdownFailures
         (String.intercalate "\n" (failureEntries env))))
    ∧ ((OtelManager.shutdown env).2 = Except.ok () ↔
        env.tracer = none ∧ env.meter = none ∧ env.logger = none)
    ∧ (∀ b e, (backendLabel b ++ e) ∈ failureEntries env ↔
        providerShutdown env b = some e) := by
  refine ⟨by rw [shutdown_eq], ?_, fun b e => mem_failureEntries_iff env b e⟩
  rw [shutdown_eq, ← failureEntries_nil_iff]
  by_cases hnil : failureEntries env = [] <;> simp [hnil]

/-- C2: for every failure pattern, the coordinator attempts trace, then
metric, then log, unconditionally, on the blocking path and on the worker
run by the timeout-bounded path alike. -/
theorem shutdown_order_fixed (env : ShutdownEnv) (timeout : Option Nat)
    (race : RaceWinner) :
    (OtelManager.shutdown env).1 = [Backend.trace, Backend.metric, Backend.log]
    ∧ (async_shutdown env JoinOutcome.ok timeout race).2 =
        [Backend.trace, Backend.metric, Backend.log] := by
  obtain ⟨t, m, l⟩ := env
  cases t <;> cases m <;> cases l <;> exact ⟨rfl, rfl⟩

/-- C3: the `OnceLock`-backed descriptor cache is first-call-wins: an
initialized cell returns its stored value untouched for any arguments, and
initializing with service name svc-A then svc-B yields the svc-A descriptor
for both managers. -/
theorem resource_first_call_wins (r : Resource) (name : String)
    (attrs aA aB : List KeyValue) (epA epB : String) :
    get_resource (some r) name attrs = (r, some r)
    ∧ (initialize_telemetry none "svc-A" epA aA).1.tracer.resource.service_name = "svc-A"
    ∧ (initialize_telemetry (initialize_telemetry none "svc-A" epA aA).2
        "svc-B" epB aB).1.tracer.resource.service_name = "svc-A"
    ∧ (initialize_telemetry (initialize_telemetry none "svc-A" epA aA).2
        "svc-B" epB aB).1.tracer.resource =
      (initialize_telemetry none "svc-A" epA aA).1.tracer.resource :=
  ⟨rfl, rfl, rfl, rfl⟩

end Observlib

namespace Observlib

/-- C4: when a timeout is present and the timer wins the race, the caller
gets `ShutdownTimeout`; that result is independent of the per-backend
outcomes and of the worker (no per-backend detail), and the blocking path
never returns `ShutdownTimeout`. -/
theorem timeout_timer_wins (env : ShutdownEnv) (join : JoinOutcome) (d : Nat) :
    (async_shutdown env join (some d) RaceWinner.timer).1 =
      Except.error ObservlibError.ShutdownTimeout
    ∧ (∀ env' join' d', (async_shutdown env join (some d) RaceWinner.timer).1 =
        (async_shutdown env' join' (some d') RaceWinner.timer).1)
    ∧ (∀ env', (OtelManager.shutdown env').2 ≠
        Except.error ObservlibError.ShutdownTimeout) := by
  refine ⟨rfl, fun _ _ _ => rfl, fun env' heq => ?_⟩
  rcases shutdown_result_shape env' with h | ⟨m, h⟩ <;> rw [h] at heq <;> simp at heq

theorem timeout_timer_wins_witness :
    (async_shutdown ⟨none, none, none⟩ JoinOutcome.ok (some 10) RaceWinner.timer).1 =
      Except.error ObservlibError.ShutdownTimeout :=
  (timeout_timer_wins ⟨none, none, none⟩ JoinOutcome.ok 10).1

/-- C5: with no timeout, the caller gets exactly the coordinator's result
when the worker completes, and a `ShutdownTimeout` is never returned from
the no-timeout path, whatever the worker outcome. -/
theorem no_timeout_patience (env : ShutdownEnv) (race : RaceWinner) :
    (async_shutdown env JoinOutcome.ok none race).1 = (OtelManager.shutdown env).2
    ∧ (∀ join, (async_shutdown env join none race).1 ≠
        Except.error ObservlibError.ShutdownTimeout) := by
  refine ⟨rfl, fun join heq => ?_⟩
  cases join with
  | ok =>
      rcases shutdown_result_shape env with h | ⟨m, h⟩ <;>
        · rw [show (async_shutdown env JoinOutcome.ok none race).1 =
              (OtelManager.shutdown env).2 from rfl, h] at heq
          simp at heq
  | joinError m => simp [async_shutdown, shutdownFuture] at heq

theorem no_timeout_patience_witness :
    (async_shutdown ⟨none, none, none⟩ JoinOutcome.ok none RaceWinner.future).1 =
      (OtelManager.shutdown ⟨none, none, none⟩).2 :=
  (no_timeout_patience ⟨none, none, none⟩ RaceWinner.future).1

/-- C6: a worker that fails to run the coordinator to completion surfaces as
`TaskJoin` to the async caller (no-timeout, or future-wins) — an error
distinct from every aggregate failure and from the timeout error — and the
blocking path never returns it. -/
theorem worker_failure_distinct (env : ShutdownEnv) (m : String) (d : Nat)
    (race : RaceWinner) :
    (async_shutdown env (JoinOutcome.joinError m) none race).1 =
      Except.error (ObservlibError.TaskJoin m)
    ∧ (async_shutdown env (JoinOutcome.joinError m) (some d) RaceWinner.future).1 =
        Except.error (ObservlibError.TaskJoin m)
    ∧ (∀ s, ObservlibError.TaskJoin m ≠ ObservlibError.MultipleShutdownFailures s)
    ∧ ObservlibError.TaskJoin m ≠ ObservlibError.ShutdownTimeout
    ∧ (∀ env', (OtelManager.shutdown env').2 ≠
        Except.error (ObservlibError.TaskJoin m)) := by
  refine ⟨rfl, rfl, fun s h => by simp at h, fun h => by simp at h, fun env' heq => ?_⟩
  rcases shutdown_result_shape env' with h | ⟨s, h⟩ <;> rw [h] at heq <;> simp at heq

theorem worker_failure_distinct_witness :
    (async_shutdown ⟨none, none, none⟩ (JoinOutcome.joinError "aborted") none
        RaceWinner.future).1 =
      Except.error (ObservlibError.TaskJoin "aborted") :=
  (worker_failure_distinct ⟨none, none, none⟩ "aborted" 0 RaceWinner.future).1

end Observlib

namespace Observlib

/-- C7: initialization points the three handles at the caller's endpoint
plus the fixed signal suffix paths, over the binary HTTP protocol by
default; the exporter builder equally accepts the JSON protocol. -/
theorem initialize_endpoints (cell : Option Resource) (name : String)
    (ep : String) (attrs : List KeyValue) :
    (initialize_telemetry cell name ep attrs).1.tracer.exporter.endpoint =
      "http://" ++ ep ++ "/v1/traces"
    ∧ (initialize_telemetry cell name ep attrs).1.meter.exporter.endpoint =
        "http://" ++ ep ++ "/v1/metrics"
    ∧ (initialize_telemetry cell name ep attrs).1.logger.exporter.endpoint =
        "http://" ++ ep ++ "/v1/logs"
    ∧ (initialize_telemetry cell name ep attrs).1.tracer.exporter.protocol =
        Protocol.HttpBinary
    ∧ (initialize_telemetry cell name ep attrs).1.meter.exporter.protocol =
        Protocol.HttpBinary
    ∧ (initialize_telemetry cell name ep attrs).1.logger.exporter.protocol =
        Protocol.HttpBinary
    ∧ (∀ url, (Exporter.build Protocol.HttpJson url).protocol = Protocol.HttpJson) :=
  ⟨rfl, rfl, rfl, rfl, rfl, rfl, fun _ => rfl⟩

/-- C8: when the timer wins, the caller observes only `ShutdownTimeout`,
while the spawned worker's shutdown sequence still runs to completion in
the background — its attempt log is full and identical to the one produced
when the future wins. -/
theorem timeout_does_not_cancel (env : ShutdownEnv) (d : Nat) :
    (async_shutdown env JoinOutcome.ok (some d) RaceWinner.timer).1 =
      Except.error ObservlibError.ShutdownTimeout
    ∧ (async_shutdown env JoinOutcome.ok (some d) RaceWinner.timer).2 =
        [Backend.trace, Backend.metric, Backend.log]
    ∧ (async_shutdown env JoinOutcome.ok (some d) RaceWinner.timer).2 =
        (async_shutdown env JoinOutcome.ok (some d) RaceWinner.future).2 := by
  obtain ⟨t, m, l⟩ := env
  exact ⟨rfl, by cases t <;> cases m <;> cases l <;> rfl, rfl⟩

/-- C9: the blocking path returns `Ok` or `MultipleShutdownFailures` and
nothing else — a single failed backend still yields the aggregate variant,
and the per-backend and timeout variants are never returned. -/
theorem blocking_shutdown_shape (env : ShutdownEnv) :
    ((OtelManager.shutdown env).2 = Except.ok () ∨
      ∃ m, (OtelManager.shutdown env).2 =
        Except.error (ObservlibError.MultipleShutdownFailures m))
    ∧ (∀ e, (OtelManager.shutdown ⟨some e, none, none⟩).2 =
        Except.error (ObservlibError.MultipleShutdownFailures
          ("tracer provider: " ++ e)))
    ∧ (∀ s, (OtelManager.shutdown env).2 ≠
        Except.error (ObservlibError.TracerShutdown s))
    ∧ (∀ s, (OtelManager.shutdown env).2 ≠
        Except.error (ObservlibError.MeterShutdown s))
    ∧ (∀ s, (OtelManager.shutdown env).2 ≠
        Except.error (ObservlibError.LoggerShutdown s))
    ∧ (OtelManager.shutdown env).2 ≠
        Except.error ObservlibError.ShutdownTimeout := by
  refine ⟨shutdown_result_shape env, fun e => rfl, ?_, ?_, ?_, ?_⟩ <;>
    first
      | (intro s heq
         rcases shutdown_result_shape env with h | ⟨m, h⟩ <;> rw [h] at heq <;> simp at heq)
      | (intro heq
         rcases shutdown_result_shape env with h | ⟨m, h⟩ <;> rw [h] at heq <;> simp at heq)

theorem blocking_shutdown_shape_witness :
    (OtelManager.shutdown ⟨some "boom", none, none⟩).2 =
      Except.error (ObservlibError.MultipleShutdownFailures "tracer provider: boom") :=
  (blocking_shutdown_shape ⟨none, none, none⟩).2.1 "boom"

/-- C10: the closure the async path hands to the blocking-pool worker is
extensionally the blocking coordinator: same attempt log and same result
for every pattern of per-backend outcomes. -/
theorem async_closure_refines_blocking (env : ShutdownEnv) :
    asyncShutdownClosure env = OtelManager.shutdown env
    ∧ shutdownFuture env JoinOutcome.ok = (OtelManager.shutdown env).2 :=
  ⟨rfl, rfl⟩

end Observlib
